import Mathlib

/-!
Verification of the jee-discipline-agent ("Mahavihara") drill scheduler and
conversation agent, embedded shallowly from the Python sources.

Part 1: the SM-2 spaced-repetition update performed by
`update_mistake_after_drill` (src/app/db/queries.py).  Machine floats are
modelled as rationals; every arithmetic step in the claims below is exact in
binary floating point at the inputs used, so the rational model agrees with
the Python semantics there.
-/

/-- Python `int(x)` applied to a real value: truncation toward zero. -/
def pyInt (q : ℚ) : ℤ := if 0 ≤ q then ⌊q⌋ else -⌊-q⌋

/-- A row of the `student_mistakes` table (src/app/db/models.py, class
`Mistake`), restricted to the fields the agent reads or writes.
Timestamps are modelled as integers (days). -/
structure Mistake where
  id : String
  user_id : String
  chapter : Option String
  topic : Option String
  custom_mistake_text : Option String
  mistake_type : Option String
  misconception : Option String
  times_drilled : ℕ
  times_correct : ℕ
  mastery_score : ℚ
  is_mastered : Bool
  next_review_at : ℤ
  easiness_factor : ℚ
  interval_days : ℤ
  repetition_count : ℕ
  last_drilled_at : Option ℤ
  mastered_at : Option ℤ
  deriving DecidableEq, Repr

/-- The SM-2 state transition that `update_mistake_after_drill`
(src/app/db/queries.py, lines 418-488) applies to the fetched mistake row
before writing it back.  `now` is `datetime.utcnow()` in days. -/
def sm2_step (m : Mistake) (is_correct : Bool) (now : ℤ) : Mistake :=
  let times_drilled := m.times_drilled + 1
  let times_correct := m.times_correct + (if is_correct then 1 else 0)
  let efri : ℚ × ℕ × ℤ :=
    if is_correct then
      let ef := min (5/2 : ℚ) (m.easiness_factor + 1/10)
      let repetition := m.repetition_count + 1
      let interval : ℤ :=
        if repetition = 1 then 1
        else if repetition = 2 then 6
        else pyInt ((m.interval_days : ℚ) * ef)
      (ef, repetition, interval)
    else
      (max (13/10 : ℚ) (m.easiness_factor - 2/10), 0, 1)
  let ef := efri.1
  let repetition := efri.2.1
  let interval := efri.2.2
  let mastery_score : ℚ :=
    if 0 < times_drilled then (times_correct : ℚ) / (times_drilled : ℚ) else 0
  let is_mastered : Bool :=
    decide ((4/5 : ℚ) ≤ mastery_score) && decide (3 ≤ times_drilled)
  { m with
    times_drilled := times_drilled
    times_correct := times_correct
    mastery_score := mastery_score
    is_mastered := is_mastered
    easiness_factor := ef
    interval_days := interval
    repetition_count := repetition
    next_review_at := now + interval
    last_drilled_at := some now
    mastered_at :=
      if is_mastered && !m.is_mastered then some now else m.mastered_at }

/-- A default mistake row used to build concrete test inputs. -/
def baseMistake : Mistake :=
  { id := "m1"
    user_id := "u1"
    chapter := none
    topic := none
    custom_mistake_text := none
    mistake_type := none
    misconception := none
    times_drilled := 0
    times_correct := 0
    mastery_score := 0
    is_mastered := false
    next_review_at := 0
    easiness_factor := 5/2
    interval_days := 1
    repetition_count := 0
    last_drilled_at := none
    mastered_at := none }

/-- `ef = 0.5`, an out-of-range input easiness factor. -/
def mLowEf : Mistake := { baseMistake with easiness_factor := 1/2 }

/-- In-range row about to reach its third repetition: `ef = 2.5`,
`repetition_count = 2`, `interval_days = 7`. -/
def mThirdRep : Mistake := { baseMistake with repetition_count := 2, interval_days := 7 }

/-- A mastered row with a perfect 3/3 record. -/
def mMastered : Mistake := { baseMistake with times_drilled := 3, times_correct := 3, is_mastered := true }

/-- The spec's Scenario C input: `times_drilled = 2`, `times_correct = 2`. -/
def mScenarioC : Mistake := { baseMistake with times_drilled := 2, times_correct := 2 }

/-- One repetition already recorded. -/
def mOneRep : Mistake := { baseMistake with repetition_count := 1 }

/-!
Part 2: the conversation layer (src/app/agent/state.py, handlers.py,
router.py and the queries they call).  External effects are made explicit:
the Supabase tables live in an `Env` record that the query functions read
and update, and the LLM calls are an oracle record of functions supplied as
a parameter.  Python `datetime.utcnow()` is the environment's `now`.
-/

/-- Python truthiness of an optional string: `None` and `""` are falsy. -/
def pyFalsy (o : Option String) : Bool :=
  match o with
  | none => true
  | some s => s == ""

/-- Python `a or dflt` for an optional string `a` and a string default. -/
def pyStrOr (a : Option String) (dflt : String) : String :=
  match a with
  | some s => if s == "" then dflt else s
  | none => dflt

/-- Python `a or b` for two optional strings. -/
def pyOrStr (a b : Option String) : Option String :=
  if pyFalsy a then b else a

/-- Python `str.title()`: upper-case the first letter of each alphabetic run,
lower-case the rest. -/
def pyTitle (s : String) : String :=
  String.mk ((s.data.foldl (fun acc c =>
    let c' := if c.isAlpha then (if acc.2 then c.toLower else c.toUpper) else c
    (acc.1 ++ [c'], c.isAlpha)) (([] : List Char), false)).1)

/-- Python `str.strip()`: drop leading and trailing whitespace. -/
def pyStrip (s : String) : String :=
  String.mk ((((s.data.dropWhile Char.isWhitespace).reverse.dropWhile Char.isWhitespace).reverse))

/-- Python `str.upper()`. -/
def pyUpper (s : String) : String :=
  String.mk (s.data.map Char.toUpper)

/-- Python `str.startswith(p)`. -/
def pyStartsWith (s p : String) : Bool :=
  p.data.isPrefixOf s.data

/-- Left-to-right non-overlapping replacement of a non-empty pattern; the
fuel starts at the length of the text, which every step shrinks. -/
def pyReplaceAux (pat repl : List Char) : ℕ → List Char → List Char
  | _, [] => []
  | 0, l => l
  | fuel + 1, c :: rest =>
    if !pat.isEmpty && pat.isPrefixOf (c :: rest) then
      repl ++ pyReplaceAux pat repl fuel (List.drop pat.length (c :: rest))
    else
      c :: pyReplaceAux pat repl fuel rest

/-- Python `str.replace(pat, repl)` for a non-empty pattern. -/
def pyReplace (s pat repl : String) : String :=
  String.mk (pyReplaceAux pat.data repl.data s.data.length s.data)

/-- Python `s[:1]`: the first character of `s` as a string. -/
def pyTake1 (s : String) : String :=
  String.mk (s.data.take 1)

/-- State for an active drill session (src/app/agent/state.py, `DrillState`).
The stored correct option and hint fields come from dict lookups with
defaults, see `handle_start_drill`. -/
structure DrillState where
  mistake_id : String
  drill_id : Option String
  question_text : String
  option_a : String
  option_b : String
  option_c : String
  option_d : String
  correct_option : String
  solution : String
  hint_1 : Option String
  hint_2 : Option String
  hint_3 : Option String
  attempts : ℕ
  hints_given : ℕ
  deriving DecidableEq, Repr

/-- Full conversation state for a user (src/app/agent/state.py,
`ConversationState`). -/
structure ConversationState where
  user_id : String
  user_name : Option String
  phone_number : String
  phase : String
  active_drill : Option DrillState
  questions_today : ℕ
  correct_today : ℕ
  session_started_at : Option ℤ
  last_intent : Option String
  last_message_at : Option ℤ
  deriving DecidableEq, Repr

/-- `create_initial_state` (state.py): fresh state for a new user. -/
def create_initial_state (user_id phone_number : String) (user_name : Option String)
    (now : ℤ) : ConversationState :=
  { user_id := user_id
    user_name := user_name
    phone_number := phone_number
    phase := "onboarding"
    active_drill := none
    questions_today := 0
    correct_today := 0
    session_started_at := none
    last_intent := none
    last_message_at := some now }

/-- `has_active_drill` (state.py). -/
def has_active_drill (state : ConversationState) : Bool :=
  state.active_drill.isSome

/-- `clear_drill` (state.py): drop the active drill and return to idle. -/
def clear_drill (state : ConversationState) : ConversationState :=
  { state with active_drill := none, phase := "idle" }

/-- `update_drill_attempts` (state.py): increment attempts on the current
drill, in place. -/
def update_drill_attempts (state : ConversationState) : ConversationState :=
  match state.active_drill with
  | some d => { state with active_drill := some { d with attempts := d.attempts + 1 } }
  | none => state

/-- `increment_hints` (state.py): increment hints given on the current
drill, in place. -/
def increment_hints (state : ConversationState) : ConversationState :=
  match state.active_drill with
  | some d => { state with active_drill := some { d with hints_given := d.hints_given + 1 } }
  | none => state

/-- A user row (src/app/db/models.py, class `User`), restricted to the
fields the agent reads or writes. -/
structure User where
  id : String
  phone_number : String
  name : Option String
  current_streak : ℕ
  longest_streak : ℕ
  is_active : Bool
  last_active_at : Option ℤ
  last_message_at : Option ℤ
  deriving DecidableEq, Repr

/-- A `drill_attempts` row (models.py, class `DrillAttempt`). -/
structure DrillAttempt where
  user_id : String
  mistake_id : String
  drill_id : Option String
  question_id : Option String
  student_answer : String
  correct_answer : String
  is_correct : Bool
  time_taken_seconds : Option ℤ
  hints_used : ℕ
  created_at : ℤ
  deriving DecidableEq, Repr

/-- A `pre_generated_drills` row (models.py, class `PreGeneratedDrill`). -/
structure PreGeneratedDrill where
  id : String
  mistake_id : String
  generated_question_text : Option String
  generated_option_a : Option String
  generated_option_b : Option String
  generated_option_c : Option String
  generated_option_d : Option String
  generated_correct_option : Option String
  generated_solution : Option String
  generated_hint_1 : Option String
  generated_hint_2 : Option String
  generated_hint_3 : Option String
  order_index : ℤ
  is_used : Bool
  used_at : Option ℤ
  deriving DecidableEq, Repr

/-- A `message_history` row (models.py, class `Message`). -/
structure MessageRecord where
  user_id : String
  direction : String
  message_text : Option String
  message_type : String
  whatsapp_message_id : Option String
  deriving DecidableEq, Repr

/-- The question dict produced either from a pre-generated drill or by
`generate_drill_question`; `none` models a missing or null entry. -/
structure QuestionData where
  question : Option String
  option_a : Option String
  option_b : Option String
  option_c : Option String
  option_d : Option String
  correct_option : Option String
  solution : Option String
  hint_1 : Option String
  hint_2 : Option String
  hint_3 : Option String
  deriving DecidableEq, Repr

/-- Result of `classify_mistake` (src/app/services/llm.py). -/
structure Classification where
  topic : String
  subtopic : String
  mistake_type : String
  misconception : String
  deriving DecidableEq, Repr

/-- Result of `extract_question_from_image` (llm.py). -/
structure Extraction where
  readable : Bool
  question_text : Option String
  topic : Option String
  student_marked : Option String
  correct_answer : Option String
  deriving DecidableEq, Repr

/-- Result of `classify_intent` (llm.py); `intent = none` models a JSON
response without an `intent` key. -/
structure IntentResult where
  intent : Option String
  confidence : ℚ
  deriving DecidableEq, Repr

/-- Aggregates returned by `get_user_stats` (queries.py). -/
structure UserStats where
  streak : ℕ
  longest_streak : ℕ
  total_mistakes : ℕ
  mastered_mistakes : ℕ
  pending_mistakes : ℕ
  questions_today : ℕ
  correct_today : ℕ
  accuracy_today : ℚ
  deriving DecidableEq, Repr

/-- The LLM oracle: one field per function of src/app/services/llm.py used
by the agent, with the same arguments.  The agent's behaviour is quantified
over every oracle. -/
structure LLM where
  generate_welcome_message : Bool → Option String → String
  classify_mistake : String → Classification
  generate_drill_question : String → String → ℕ → QuestionData
  generate_correct_response : ℕ → ℕ → ℕ → Bool → String
  generate_wrong_response : String → String → ℕ → ℕ → Option String → Option String → String
  extract_question_from_image : String → Extraction
  classify_intent : String → Bool → ℕ → IntentResult

/-- The external state: the Supabase tables touched by the agent plus the
current time (days) and the ids the database would assign to fresh rows. -/
structure Env where
  users : List User
  mistakes : List Mistake
  pre_generated_drills : List PreGeneratedDrill
  drill_attempts : List DrillAttempt
  message_history : List MessageRecord
  conversation_states : List (String × ConversationState)
  now : ℤ
  today_start : ℤ
  fresh_user_id : String
  fresh_mistake_id : String
  deriving DecidableEq, Repr

/-- `get_user_by_phone` (queries.py). -/
def get_user_by_phone (phone_number : String) (env : Env) : Option User :=
  env.users.find? (fun u => u.phone_number == phone_number)

/-- `get_user_by_id` (queries.py). -/
def get_user_by_id (user_id : String) (env : Env) : Option User :=
  env.users.find? (fun u => u.id == user_id)

/-- `create_user` (queries.py): insert a row with the model defaults; the
database assigns `env.fresh_user_id`. -/
def create_user (phone_number : String) (env : Env) : User × Env :=
  let u : User :=
    { id := env.fresh_user_id
      phone_number := phone_number
      name := none
      current_streak := 0
      longest_streak := 0
      is_active := true
      last_active_at := none
      last_message_at := none }
  (u, { env with users := env.users ++ [u] })

/-- `get_or_create_user` (queries.py). -/
def get_or_create_user (phone_number : String) (env : Env) : User × Env :=
  match get_user_by_phone phone_number env with
  | some u => (u, env)
  | none => create_user phone_number env

/-- `update_user` (queries.py), specialised to the field updates the agent
passes; `f` is the update dict. -/
def update_user (user_id : String) (f : User → User) (env : Env) : Env :=
  { env with users := env.users.map (fun u => if u.id == user_id then f u else u) }

/-- `update_user_last_message` (queries.py). -/
def update_user_last_message (user_id : String) (env : Env) : Env :=
  update_user user_id
    (fun u => { u with last_message_at := some env.now, last_active_at := some env.now }) env

/-- `update_user_streak` (queries.py): add one or reset, returning the new
streak value. -/
def update_user_streak (user_id : String) (increment : Bool) (env : Env) : ℕ × Env :=
  match get_user_by_id user_id env with
  | none => (0, env)
  | some u =>
    let new_streak := if increment then u.current_streak + 1 else 0
    let longest := if increment then max u.longest_streak new_streak else u.longest_streak
    (new_streak,
      update_user user_id
        (fun v => { v with current_streak := new_streak, longest_streak := longest }) env)

/-- `set_user_inactive` (queries.py). -/
def set_user_inactive (user_id : String) (env : Env) : Env :=
  update_user user_id (fun u => { u with is_active := false }) env

/-- `get_pending_mistakes_count` (queries.py): mistakes of the user not yet
mastered. -/
def get_pending_mistakes_count (user_id : String) (env : Env) : ℕ :=
  (env.mistakes.filter (fun m => m.user_id == user_id && m.is_mastered == false)).length

/-- `get_mistake_by_id` (queries.py). -/
def get_mistake_by_id (mistake_id : String) (env : Env) : Option Mistake :=
  env.mistakes.find? (fun m => m.id == mistake_id)

/-- `get_next_due_mistake` (queries.py): the user's unmastered mistake with
the earliest `next_review_at` that is due (`next_review_at <= now`). -/
def get_next_due_mistake (user_id : String) (env : Env) : Option Mistake :=
  (env.mistakes.filter (fun m =>
      m.user_id == user_id && !m.is_mastered && decide (m.next_review_at ≤ env.now))).foldl
    (fun acc m =>
      match acc with
      | none => some m
      | some b => if m.next_review_at < b.next_review_at then some m else acc)
    none

/-- `update_mistake_after_drill` (queries.py, lines 418-488): fetch the row,
apply the SM-2 transition `sm2_step`, and write it back; raises `ValueError`
if the mistake is missing. -/
def update_mistake_after_drill (mistake_id : String) (is_correct : Bool) (env : Env) :
    Except String (Mistake × Env) :=
  match get_mistake_by_id mistake_id env with
  | none => .error ("Mistake " ++ mistake_id ++ " not found")
  | some m =>
    let m' := sm2_step m is_correct env.now
    .ok (m', { env with mistakes := env.mistakes.map (fun x => if x.id == mistake_id then m' else x) })

/-- `create_mistake` (queries.py): insert a mistake row; unspecified columns
take the model defaults and the database assigns `env.fresh_mistake_id`. -/
def create_mistake (user_id subject : String) (chapter topic custom_mistake_text : Option String)
    (classification : Option Classification) (env : Env) : Mistake × Env :=
  let _ := subject
  let m : Mistake :=
    { id := env.fresh_mistake_id
      user_id := user_id
      chapter := pyOrStr chapter (classification.map (fun c => c.topic))
      topic := pyOrStr topic (classification.map (fun c => c.subtopic))
      custom_mistake_text := custom_mistake_text
      mistake_type := classification.map (fun c => c.mistake_type)
      misconception := classification.map (fun c => c.misconception)
      times_drilled := 0
      times_correct := 0
      mastery_score := 0
      is_mastered := false
      next_review_at := env.now
      easiness_factor := 5/2
      interval_days := 1
      repetition_count := 0
      last_drilled_at := none
      mastered_at := none }
  let env' := { env with mistakes := env.mistakes ++ [m] }
  (m, { env' with fresh_mistake_id := env.fresh_mistake_id ++ "x" })

/-- `get_next_unused_drill` (queries.py): unused pre-generated drill of the
mistake with the smallest `order_index`. -/
def get_next_unused_drill (mistake_id : String) (env : Env) : Option PreGeneratedDrill :=
  (env.pre_generated_drills.filter (fun d => d.mistake_id == mistake_id && !d.is_used)).foldl
    (fun acc d =>
      match acc with
      | none => some d
      | some b => if d.order_index < b.order_index then some d else acc)
    none

/-- `mark_drill_used` (queries.py). -/
def mark_drill_used (drill_id : String) (env : Env) : Env :=
  let upd := fun (d : PreGeneratedDrill) =>
    if d.id == drill_id then { d with is_used := true, used_at := some env.now } else d
  { env with pre_generated_drills := env.pre_generated_drills.map upd }

/-- `save_drill_attempt` (queries.py), with the arguments the answer handler
passes; the other columns stay at their defaults. -/
def save_drill_attempt (user_id mistake_id student_answer correct_answer : String)
    (is_correct : Bool) (drill_id : Option String) (hints_used : ℕ) (env : Env) : Env :=
  { env with drill_attempts := env.drill_attempts ++
      [{ user_id := user_id
         mistake_id := mistake_id
         drill_id := drill_id
         question_id := none
         student_answer := student_answer
         correct_answer := correct_answer
         is_correct := is_correct
         time_taken_seconds := none
         hints_used := hints_used
         created_at := env.now }] }

/-- `save_message` (queries.py). -/
def save_message (user_id direction : String) (message_text : Option String)
    (message_type : String) (whatsapp_message_id : Option String) (env : Env) : Env :=
  { env with message_history := env.message_history ++
      [{ user_id := user_id
         direction := direction
         message_text := message_text
         message_type := message_type
         whatsapp_message_id := whatsapp_message_id }] }

/-- `is_duplicate_message` (queries.py, lines 634-648): a falsy id is never a
duplicate; otherwise look for the id among the saved messages. -/
def is_duplicate_message (whatsapp_message_id : Option String) (env : Env) : Bool :=
  match whatsapp_message_id with
  | none => false
  | some s =>
    if s == "" then false
    else env.message_history.any (fun r => r.whatsapp_message_id == some s)

/-- `get_user_stats` (queries.py): aggregate counts for the stats card;
raises `ValueError` when the user is missing. -/
def get_user_stats (user_id : String) (env : Env) : Except String UserStats :=
  match get_user_by_id user_id env with
  | none => .error ("User " ++ user_id ++ " not found")
  | some u =>
    let ms := env.mistakes.filter (fun m => m.user_id == user_id)
    let total_mistakes := ms.length
    let mastered := (ms.filter (fun m => m.is_mastered)).length
    let atts := env.drill_attempts.filter
      (fun a => a.user_id == user_id && decide (env.today_start ≤ a.created_at))
    let questions_today := atts.length
    let correct_today := (atts.filter (fun a => a.is_correct)).length
    .ok
      { streak := u.current_streak
        longest_streak := u.longest_streak
        total_mistakes := total_mistakes
        mastered_mistakes := mastered
        pending_mistakes := total_mistakes - mastered
        questions_today := questions_today
        correct_today := correct_today
        accuracy_today :=
          if 0 < questions_today then (correct_today : ℚ) / (questions_today : ℚ) * 100 else 0 }

/-- `get_conversation_state` (queries.py): `none` models both a missing row
and an empty `state_data`. -/
def get_conversation_state (user_id : String) (env : Env) : Option ConversationState :=
  (env.conversation_states.find? (fun p => p.1 == user_id)).map (fun p => p.2)

/-- `save_conversation_state` (queries.py): upsert on `user_id`. -/
def save_conversation_state (user_id : String) (state : ConversationState) (env : Env) : Env :=
  let upd := fun (p : String × ConversationState) =>
    if p.1 == user_id then (p.1, state) else p
  if (env.conversation_states.find? (fun p => p.1 == user_id)).isSome then
    { env with conversation_states := env.conversation_states.map upd }
  else
    { env with conversation_states := env.conversation_states ++ [(user_id, state)] }

/-- Result of one intent handler (src/app/agent/handlers.py): the response
text, the updated state, and the updated external state; `Except` models a
raised exception. -/
abbrev HandlerResult := Except String (String × ConversationState × Env)

/-- Signature shared by all intent handlers. -/
abbrev Handler := LLM → User → ConversationState → String → Option String → Env → HandlerResult

/-- Python `{None}` inside an f-string prints as `None`. -/
def pyFmtOpt (o : Option String) : String :=
  match o with
  | some s => s
  | none => "None"

/-- `handle_greeting` (handlers.py, lines 44-65). -/
def handle_greeting : Handler := fun llm user state _message _image_url env =>
  let is_new := state.phase == "onboarding" || pyFalsy user.name
  let response := llm.generate_welcome_message is_new user.name
  let state :=
    if is_new then { state with phase := "onboarding" } else { state with phase := "idle" }
  .ok (response, state, env)

/-- `handle_onboarding` (handlers.py): collect the user's name. -/
def handle_onboarding : Handler := fun _llm user state message _image_url env =>
  let name := pyTitle (pyStrip message)
  if name.length < 2 || 50 < name.length then
    .ok ("What\x27s your name? Just tell me!", state, env)
  else
    let env := update_user user.id (fun u => { u with name := some name }) env
    let state := { state with user_name := some name, phase := "idle" }
    let pending := get_pending_mistakes_count user.id env
    let response :=
      if 0 < pending then
        "Welcome " ++ name ++ "! 💪\n\nYou have " ++ toString pending ++
          " mistakes waiting to be fixed.\n\nReply *GO* to start drilling, or tell me about a new mistake!"
      else
        "Welcome " ++ name ++
          "!\n\nI\x27m Mahavihara - your strict JEE guru.\n\nTell me about a mistake you made in your last test or practice. I\x27ll make sure you never repeat it! 🔥"
    .ok (response, state, env)

/-- Tail of `handle_report_mistake` shared by the text and image paths:
classify, store the mistake, go idle. -/
def report_mistake_tail (llm : LLM) (user : User) (state : ConversationState)
    (mistake_text : String) (env : Env) : HandlerResult :=
  let classification := llm.classify_mistake mistake_text
  let subject :=
    if classification.topic.contains '/' then (classification.topic.splitOn "/").headD ""
    else "physics"
  let me := create_mistake user.id subject (some classification.topic)
    (some classification.subtopic) (some mistake_text) (some classification) env
  let env := me.2
  let state := { state with phase := "idle" }
  let response :=
    "📝 Got it! Logged your mistake:\n\n*Topic:* " ++ classification.topic ++ " → " ++
      classification.subtopic ++ "\n*Type:* " ++ classification.mistake_type ++ "\n*Issue:* " ++
      classification.misconception ++
      "\n\nI\x27ll drill you on this until it\x27s fixed! 💪\n\nReply *GO* to start practicing now, or tell me another mistake."
  .ok (response, state, env)

/-- `handle_report_mistake` (handlers.py). -/
def handle_report_mistake : Handler := fun llm user state message image_url env =>
  match image_url with
  | some url =>
    let extraction := llm.extract_question_from_image url
    if !extraction.readable then
      .ok ("Couldn\x27t read that image clearly.\n\nCan you send a clearer photo or type out what went wrong?",
        state, env)
    else
      let mistake_text :=
        "Question: " ++ (extraction.question_text.getD "") ++ "\n" ++
          "Topic: " ++ (extraction.topic.getD "unknown") ++ "\n" ++
          "Student marked: " ++ (extraction.student_marked.getD "?") ++ ", " ++
          "Correct: " ++ (extraction.correct_answer.getD "?")
      report_mistake_tail llm user state mistake_text env
  | none => report_mistake_tail llm user state message env

/-- The question dict built from a pre-generated drill in
`handle_start_drill`. -/
def drill_question_data (d : PreGeneratedDrill) : QuestionData :=
  { question := d.generated_question_text
    option_a := d.generated_option_a
    option_b := d.generated_option_b
    option_c := d.generated_option_c
    option_d := d.generated_option_d
    correct_option := d.generated_correct_option
    solution := d.generated_solution
    hint_1 := d.generated_hint_1
    hint_2 := d.generated_hint_2
    hint_3 := d.generated_hint_3 }

/-- `handle_start_drill` (handlers.py): find the next due mistake and present
a drill question. -/
def handle_start_drill : Handler := fun llm user state _message _image_url env =>
  match get_next_due_mistake user.id env with
  | none =>
    let pending := get_pending_mistakes_count user.id env
    if pending == 0 then
      .ok ("🎉 No mistakes to drill!\n\nTell me about a mistake from your recent test or practice.",
        state, env)
    else
      .ok ("You have " ++ toString pending ++
        " mistakes, but none are due for review yet.\n\nThey\x27ll come back based on spaced repetition. Meanwhile, tell me about new mistakes!",
        state, env)
  | some mistake =>
    let drill := get_next_unused_drill mistake.id env
    let qde : QuestionData × Option String × Env :=
      match drill with
      | some d =>
        if !(pyFalsy d.generated_question_text) then
          (drill_question_data d, some d.id, mark_drill_used d.id env)
        else
          (llm.generate_drill_question
            (pyStrOr (pyOrStr mistake.misconception mistake.custom_mistake_text) "general")
            (pyStrOr (pyOrStr mistake.topic mistake.chapter) "physics") 2, none, env)
      | none =>
        (llm.generate_drill_question
          (pyStrOr (pyOrStr mistake.misconception mistake.custom_mistake_text) "general")
          (pyStrOr (pyOrStr mistake.topic mistake.chapter) "physics") 2, none, env)
    let question_data := qde.1
    let drill_id := qde.2.1
    let env := qde.2.2
    let q : DrillState :=
      { mistake_id := mistake.id
        drill_id := drill_id
        question_text := question_data.question.getD ""
        option_a := question_data.option_a.getD ""
        option_b := question_data.option_b.getD ""
        option_c := question_data.option_c.getD ""
        option_d := question_data.option_d.getD ""
        correct_option := question_data.correct_option.getD "A"
        solution := question_data.solution.getD ""
        hint_1 := question_data.hint_1
        hint_2 := question_data.hint_2
        hint_3 := question_data.hint_3
        attempts := 0
        hints_given := 0 }
    let state := { state with phase := "drilling", active_drill := some q }
    let response :=
      "*Drilling:* " ++ pyFmtOpt (pyOrStr mistake.topic mistake.chapter) ++ "\n_" ++
        pyStrOr mistake.misconception "Fix this mistake!" ++ "_\n\n*Question:*\n" ++
        q.question_text ++ "\n\n*A)* " ++ q.option_a ++ "\n*B)* " ++ q.option_b ++
        "\n*C)* " ++ q.option_c ++ "\n*D)* " ++ q.option_d ++ "\n\nReply with *A*, *B*, *C*, or *D*"
    .ok (response, state, env)

/-- Answer extraction of `handle_answer_drill` (handlers.py, lines 286-291):
trim, upper-case, strip an `OPTION` prefix (Python `replace` removes every
occurrence), and keep the first character. -/
def extract_answer (message : String) : String :=
  let answer := pyUpper (pyStrip message)
  let answer :=
    if pyStartsWith answer "OPTION" then pyStrip (pyReplace answer "OPTION" "") else answer
  if answer.data.isEmpty then "" else pyTake1 answer

/-- The dict lookup `drill.get(f"hint_{hints_given + 1}")` of
`handle_answer_drill`; index 3 and beyond name absent keys. -/
def hint_at (d : DrillState) (hints_given : ℕ) : Option String :=
  match hints_given with
  | 0 => d.hint_1
  | 1 => d.hint_2
  | 2 => d.hint_3
  | _ => none

/-- `handle_answer_drill` (handlers.py, lines 274-380). -/
def handle_answer_drill : Handler := fun llm user state message _image_url env =>
  match state.active_drill with
  | none => .ok ("No active question. Reply *GO* to start drilling!", state, env)
  | some drill0 =>
    let answer := extract_answer message
    if !((["A", "B", "C", "D"] : List String).contains answer) then
      .ok ("Please reply with *A*, *B*, *C*, or *D*", state, env)
    else
      let correct_answer := drill0.correct_option
      let is_correct := answer == correct_answer
      let state := update_drill_attempts state
      -- the source's local `drill` aliases the state's drill dict, so reads
      -- from here on already see the attempts increment made just above
      let drill : DrillState := { drill0 with attempts := drill0.attempts + 1 }
      let attempts := drill.attempts + 1
      let env := save_drill_attempt user.id drill.mistake_id answer correct_answer
        is_correct drill.drill_id drill.hints_given env
      match update_mistake_after_drill drill.mistake_id is_correct env with
      | .error e => .error e
      | .ok (updated_mistake, env) =>
        if is_correct then
          let state := { state with correct_today := state.correct_today + 1 }
          let state := { state with questions_today := state.questions_today + 1 }
          let se := update_user_streak user.id true env
          let new_streak := se.1
          let env := se.2
          let response := llm.generate_correct_response new_streak state.questions_today
            updated_mistake.times_drilled updated_mistake.is_mastered
          let state := clear_drill state
          let pending := get_pending_mistakes_count user.id env
          let response :=
            if 0 < pending then
              response ++ "\n\n" ++ toString pending ++ " more mistakes waiting. Reply *GO* to continue!"
            else
              response ++ "\n\n🏆 All caught up! Tell me about new mistakes."
          .ok (response, state, env)
        else
          let hints_given := drill.hints_given
          if 3 ≤ attempts then
            let response := llm.generate_wrong_response answer correct_answer attempts
              hints_given none (some drill.solution)
            let response := response ++ "\n\n*Solution:* " ++ drill.solution ++
              "\n\nWe\x27ll revisit this tomorrow. Reply *GO* to continue."
            let state := clear_drill state
            .ok (response, state, env)
          else
            let hint_text := hint_at drill hints_given
            let response := llm.generate_wrong_response answer correct_answer attempts
              hints_given hint_text none
            let state := increment_hints state
            .ok (response, state, env)

/-- `handle_stats` (handlers.py): show progress; the state is unchanged. -/
def handle_stats : Handler := fun _llm user state _message _image_url env =>
  match get_user_stats user.id env with
  | .error e => .error e
  | .ok stats =>
    let name := pyStrOr user.name "there"
    let response :=
      "📊 *" ++ name ++ "\x27s Progress*\n\n🔥 *Streak:* " ++ toString stats.streak ++
        " days (Best: " ++ toString stats.longest_streak ++ ")\n\n📝 *Mistakes:*\n   • Total tracked: " ++
        toString stats.total_mistakes ++ "\n   • Mastered: " ++ toString stats.mastered_mistakes ++
        " ✅\n   • Pending: " ++ toString stats.pending_mistakes ++ "\n\n📅 *Today:*\n   • Questions: " ++
        toString stats.questions_today ++ "\n   • Correct: " ++ toString stats.correct_today ++
        "\n   • Accuracy: " ++ toString (round stats.accuracy_today) ++ "%\n\n"
    let response :=
      if 0 < stats.pending_mistakes then
        response ++ "Reply *GO* to drill your " ++ toString stats.pending_mistakes ++ " pending mistakes!"
      else
        response ++ "🎉 All caught up! Tell me about new mistakes."
    .ok (response, state, env)

/-- `handle_help` (handlers.py): static command list; the state is
unchanged. -/
def handle_help : Handler := fun _llm _user state _message _image_url env =>
  .ok ("*Mahavihara Commands*\n\n*GO* - Start drilling your mistakes\n*STATS* - See your progress & streak\n*STOP* - Unsubscribe from messages\n\n*To report a mistake:*\nJust tell me! Examples:\n• \x27I confused torque with force\x27\n• \x27Made a sign error in kinematics\x27\n• Send a photo of the question\n\n*To answer:*\nReply with A, B, C, or D\n\nQuestions? Just ask! 💪",
    state, env)

/-- `handle_stop` (handlers.py): deactivate the user and mark the phase
stopped. -/
def handle_stop : Handler := fun _llm user state _message _image_url env =>
  let env := set_user_inactive user.id env
  let state := { state with phase := "stopped" }
  .ok ("You\x27ve been unsubscribed from Mahavihara.\n\nI won\x27t send you any more messages.\nReply *START* anytime to resume.",
    state, env)

/-- `handle_chitchat` (handlers.py): fallback redirect; the state is
unchanged. -/
def handle_chitchat : Handler := fun _llm user state _message _image_url env =>
  let name := pyStrOr user.name "there"
  let pending := get_pending_mistakes_count user.id env
  if 0 < pending then
    .ok ("Hey " ++ name ++ ", let\x27s focus! 📚\n\nYou have " ++ toString pending ++
      " mistakes waiting.\nReply *GO* to practice, or tell me about a new mistake.", state, env)
  else
    .ok ("Hey " ++ name ++
      "! I\x27m here to fix your JEE mistakes.\n\nTell me about a mistake you made recently, and I\x27ll make sure you never repeat it!",
      state, env)

/-- Result of `route_message` / `process_message`: the response may be absent
(inactive user, duplicate webhook). -/
abbrev RouteResult := Except String (Option String × ConversationState × Env)

/-- Lift a handler result into a route result. -/
def wrap_response (r : HandlerResult) : RouteResult :=
  r.map (fun t => (some t.1, t.2.1, t.2.2))

/-- The `quick_intents` keyword table of `route_message` (router.py). -/
def quick_intents : List (String × String) :=
  [("GO", "START_DRILL"), ("LET\x27S GO", "START_DRILL"), ("LETS GO", "START_DRILL"),
   ("START", "START_DRILL"), ("BEGIN", "START_DRILL"), ("PRACTICE", "START_DRILL"),
   ("STATS", "CHECK_STATS"), ("MY STATS", "CHECK_STATS"), ("PROGRESS", "CHECK_STATS"),
   ("HELP", "HELP"), ("STOP", "STOP"), ("UNSUBSCRIBE", "STOP")]

/-- The handler dict used for quick intents in `route_message`; it has no
entry for `ANSWER_DRILL`. -/
def quick_handler (intent : String) : Option Handler :=
  if intent == "START_DRILL" then some handle_start_drill
  else if intent == "CHECK_STATS" then some handle_stats
  else if intent == "HELP" then some handle_help
  else if intent == "STOP" then some handle_stop
  else none

/-- The full handler dict of `route_message`, defaulting to chitchat. -/
def intent_handler (intent : String) : Handler :=
  if intent == "GREETING" then handle_greeting
  else if intent == "REPORT_MISTAKE" then handle_report_mistake
  else if intent == "START_DRILL" then handle_start_drill
  else if intent == "ANSWER_DRILL" then handle_answer_drill
  else if intent == "CHECK_STATS" then handle_stats
  else if intent == "HELP" then handle_help
  else if intent == "STOP" then handle_stop
  else if intent == "CHITCHAT" then handle_chitchat
  else handle_chitchat

/-- Final stage of `route_message`: classify the intent with the LLM and
dispatch. -/
def route_llm_classify : LLM → User → ConversationState → String → Option String → Env → RouteResult :=
  fun llm user state message image_url env =>
  let pending := get_pending_mistakes_count user.id env
  let ir := llm.classify_intent message (has_active_drill state) pending
  let intent := ir.intent.getD "CHITCHAT"
  let state := { state with last_intent := some intent }
  wrap_response (intent_handler intent llm user state message image_url env)

/-- Keyword-matching stage of `route_message`: on a quick-intent hit the
state's `last_intent` is set before dispatch. -/
def route_quick : LLM → User → ConversationState → String → Option String → Env → RouteResult :=
  fun llm user state message image_url env =>
  match (quick_intents.find? (fun p => p.1 == pyUpper (pyStrip message))).map (fun p => p.2) with
  | some intent =>
    let state := { state with last_intent := some intent }
    match quick_handler intent with
    | some h => wrap_response (h llm user state message image_url env)
    | none => route_llm_classify llm user state message image_url env
  | none => route_llm_classify llm user state message image_url env

/-- Active-drill stage of `route_message` (router.py, lines 156-161): if a
drill is active and the first character of the trimmed upper-cased message is
A, B, C or D, the message is treated as an answer. -/
def route_drill_check : LLM → User → ConversationState → String → Option String → Env → RouteResult :=
  fun llm user state message image_url env =>
  if has_active_drill state &&
      (["A", "B", "C", "D"] : List String).contains (pyTake1 (pyUpper (pyStrip message))) then
    wrap_response (handle_answer_drill llm user state message image_url env)
  else
    route_quick llm user state message image_url env

/-- Words excluded by the onboarding special case of `route_message`. -/
def onboarding_excluded : List String :=
  ["GO", "STATS", "HELP", "STOP", "START", "HI", "HELLO", "HEY", "HOLA", "YO", "SUP", "NAMASTE"]

/-- `route_message` (router.py): inactive-user gate, onboarding special case,
active-drill answer check, quick keywords, then LLM classification. -/
def route_message : LLM → User → ConversationState → String → Option String → Env → RouteResult :=
  fun llm user state message image_url env =>
  if !user.is_active then
    if pyUpper (pyStrip message) == "START" then
      let env := update_user user.id (fun u => { u with is_active := true }) env
      .ok (some "Welcome back! Mahavihara missed you.\n\nReply *GO* to start drilling your mistakes!",
        state, env)
    else
      .ok (none, state, env)
  else
    let upper_msg := pyUpper (pyStrip message)
    if state.phase == "onboarding" && user.name.isNone &&
        !(onboarding_excluded.contains upper_msg) &&
        !(pyStartsWith upper_msg "HI ") && !(pyStartsWith upper_msg "HELLO ") then
      wrap_response (handle_onboarding llm user state message image_url env)
    else
      route_drill_check llm user state message image_url env

/-- `process_message` (router.py, lines 39-117): deduplicate, load the user
and conversation state, route, persist state and messages, and return the
response (none for a duplicate or an inactive user). -/
def process_message (llm : LLM) (env : Env) (phone_number : String)
    (message_text : Option String) (image_url : Option String)
    (whatsapp_message_id : Option String) : Except String (Option String × Env) :=
  if !(pyFalsy whatsapp_message_id) && is_duplicate_message whatsapp_message_id env then
    .ok (none, env)
  else
    let ue := get_or_create_user phone_number env
    let user := ue.1
    let env := ue.2
    let env := update_user_last_message user.id env
    let env := save_message user.id "inbound" message_text
      (if image_url.isSome then "image" else "text") whatsapp_message_id env
    let state :=
      match get_conversation_state user.id env with
      | some st => st
      | none => create_initial_state user.id phone_number user.name env.now
    let state := { state with user_id := user.id }
    let state := { state with phone_number := phone_number }
    let state := { state with user_name := user.name }
    let state := { state with last_message_at := some env.now }
    match route_message llm user state (message_text.getD "") image_url env with
    | .error e => .error e
    | .ok (response, new_state, env) =>
      let env := save_conversation_state user.id new_state env
      let env :=
        match response with
        | some r => if r == "" then env else save_message user.id "outbound" (some r) "text" none env
        | none => env
      .ok (response, env)


/-- The conversation-state invariant of the spec: a drill is attached exactly
in the drilling phase. -/
def stateInv (s : ConversationState) : Prop :=
  s.active_drill.isSome = true ↔ s.phase = "drilling"

instance (s : ConversationState) : Decidable (stateInv s) := by
  unfold stateInv
  exact inferInstance

/-- The state component of a handler result. -/
def resState (r : HandlerResult) : Option ConversationState :=
  match r with
  | .ok t => some t.2.1
  | .error _ => none

/-- The response component of a handler result. -/
def resResponse (r : HandlerResult) : Option String :=
  match r with
  | .ok t => some t.1
  | .error _ => none

/-- The environment component of a handler result. -/
def resEnv (r : HandlerResult) : Option Env :=
  match r with
  | .ok t => some t.2.2
  | .error _ => none

/-- A handler run preserves the conversation-state invariant: when it
returns normally, the returned state satisfies `stateInv`. -/
def PreservesInv (r : HandlerResult) : Prop :=
  match r with
  | .ok t => stateInv t.2.1
  | .error _ => True

/-- The state component of a route result. -/
def routeState (r : RouteResult) : Option ConversationState :=
  match r with
  | .ok t => some t.2.1
  | .error _ => none

/-- The response component of a route result. -/
def routeResponse (r : RouteResult) : Option (Option String) :=
  match r with
  | .ok t => some t.1
  | .error _ => none

/-- The environment component of a route result. -/
def routeEnv (r : RouteResult) : Option Env :=
  match r with
  | .ok t => some t.2.2
  | .error _ => none

/-- The number of hints supplied with a drill session. -/
def num_hints (d : DrillState) : ℕ :=
  ([d.hint_1, d.hint_2, d.hint_3].filter Option.isSome).length

/-- A constant LLM oracle for concrete runs. -/
def llm0 : LLM :=
  { generate_welcome_message := fun _ _ => "welcome"
    classify_mistake := fun _ =>
      { topic := "physics/mechanics"
        subtopic := "torque"
        mistake_type := "conceptual"
        misconception := "confused torque with force" }
    generate_drill_question := fun _ _ _ =>
      { question := some "q"
        option_a := some "1"
        option_b := some "2"
        option_c := some "3"
        option_d := some "4"
        correct_option := some "B"
        solution := some "because"
        hint_1 := none
        hint_2 := none
        hint_3 := none }
    generate_correct_response := fun _ _ _ _ => "correct"
    generate_wrong_response := fun _ _ _ _ _ _ => "wrong"
    extract_question_from_image := fun _ =>
      { readable := false
        question_text := none
        topic := none
        student_marked := none
        correct_answer := none }
    classify_intent := fun _ _ _ => { intent := none, confidence := 1/2 } }

/-- A concrete active user. -/
def user0 : User :=
  { id := "u1"
    phone_number := "p1"
    name := none
    current_streak := 0
    longest_streak := 0
    is_active := true
    last_active_at := none
    last_message_at := none }

/-- A pending mistake row for user `u1` with integral numeric fields. -/
def mFix : Mistake :=
  { id := "m1"
    user_id := "u1"
    chapter := none
    topic := none
    custom_mistake_text := none
    mistake_type := none
    misconception := none
    times_drilled := 0
    times_correct := 0
    mastery_score := 0
    is_mastered := false
    next_review_at := 0
    easiness_factor := 2
    interval_days := 1
    repetition_count := 0
    last_drilled_at := none
    mastered_at := none }

/-- An active drill on mistake `m1`, correct option B, no hints supplied. -/
def drillFix : DrillState :=
  { mistake_id := "m1"
    drill_id := none
    question_text := "q"
    option_a := "1"
    option_b := "2"
    option_c := "3"
    option_d := "4"
    correct_option := "B"
    solution := "because"
    hint_1 := none
    hint_2 := none
    hint_3 := none
    attempts := 0
    hints_given := 0 }

/-- The same drill with two hints supplied and one failed attempt already
recorded. -/
def drillSecondTry : DrillState :=
  { drillFix with hint_1 := some "h1", hint_2 := some "h2", attempts := 1 }

/-- A drilling-phase conversation state holding `drillFix`. -/
def sDrilling : ConversationState :=
  { user_id := "u1"
    user_name := none
    phone_number := "p1"
    phase := "drilling"
    active_drill := some drillFix
    questions_today := 0
    correct_today := 0
    session_started_at := none
    last_intent := none
    last_message_at := none }

/-- An idle state with no drill. -/
def sIdle : ConversationState :=
  { sDrilling with phase := "idle", active_drill := none }

/-- A drilling-phase state holding `drillSecondTry`. -/
def sSecondTry : ConversationState :=
  { sDrilling with active_drill := some drillSecondTry }

/-- An environment with user `u1`, its pending mistake `m1`, and no other
rows. -/
def env0 : Env :=
  { users := [user0]
    mistakes := [mFix]
    pre_generated_drills := []
    drill_attempts := []
    message_history := []
    conversation_states := []
    now := 0
    today_start := 0
    fresh_user_id := "u2"
    fresh_mistake_id := "m2" }

/-- An environment that has already recorded an inbound message with
WhatsApp id `wamid1`. -/
def envSeen : Env :=
  { env0 with message_history :=
      [{ user_id := "u1"
         direction := "inbound"
         message_text := some "hi"
         message_type := "text"
         whatsapp_message_id := some "wamid1" }] }


/-! Claims C1-C5: the SM-2 scheduler. -/

/-- C1 as stated is false: on the correct branch the code computes
`min(2.5, ef + 0.1)`, which only clamps from above, so the out-of-range
input `ef = 0.5` yields `0.6`, outside `[1.3, 2.5]`. -/
theorem C1_counterexample :
    ¬ ((13/10 : ℚ) ≤ (sm2_step mLowEf true 0).easiness_factor ∧
       (sm2_step mLowEf true 0).easiness_factor ≤ 5/2) := by
  simp only [sm2_step, mLowEf, baseMistake, min_def]
  norm_num

/-- C1 (amended): for every mistake whose easiness factor is already in
`[1.3, 2.5]`, after `update_mistake_after_drill` the easiness factor stays in
`[1.3, 2.5]`, on both the correct and the wrong branch; each branch clamps in
one direction only, so out-of-range input is not pulled back into range. -/
theorem C1_theorem (m : Mistake) (b : Bool) (now : ℤ)
    (h1 : (13/10 : ℚ) ≤ m.easiness_factor) (h2 : m.easiness_factor ≤ 5/2) :
    (13/10 : ℚ) ≤ (sm2_step m b now).easiness_factor ∧
      (sm2_step m b now).easiness_factor ≤ 5/2 := by
  cases b <;> simp only [sm2_step] <;> constructor
  · exact le_max_left _ _
  · exact max_le (by norm_num) (by linarith)
  · exact le_min (by norm_num) (by linarith)
  · exact min_le_left _ _

/-- Witness for C1 at `ef = 2.5` on the correct branch. -/
theorem C1_witness :
    (((13/10 : ℚ) ≤ baseMistake.easiness_factor) ∧ (baseMistake.easiness_factor ≤ 5/2)) ∧
      ((13/10 : ℚ) ≤ (sm2_step baseMistake true 0).easiness_factor ∧
        (sm2_step baseMistake true 0).easiness_factor ≤ 5/2) :=
  ⟨⟨by norm_num [baseMistake], by norm_num [baseMistake]⟩,
    C1_theorem baseMistake true 0 (by norm_num [baseMistake]) (by norm_num [baseMistake])⟩

/-- C2: on a wrong answer `update_mistake_after_drill` resets
`repetition_count` to 0 and `interval_days` to 1 for every prior history, and
sets the easiness factor to `max(1.3, ef - 0.2)`. -/
theorem C2_theorem (m : Mistake) (now : ℤ) :
    (sm2_step m false now).repetition_count = 0 ∧
      (sm2_step m false now).interval_days = 1 ∧
      (sm2_step m false now).easiness_factor = max (13/10 : ℚ) (m.easiness_factor - 2/10) := by
  refine ⟨?_, ?_, ?_⟩ <;> simp [sm2_step]

/-- C3 as stated is false: the code computes the new interval with Python
`int(...)` (truncation), not rounding.  At `ef = 2.5`, `repetition_count = 2`
and `interval_days = 7` (an in-range input) the correct branch stores
`int(7 * 2.5) = 17`, while rounding gives 18. -/
theorem C3_counterexample :
    (sm2_step mThirdRep true 0).interval_days = 17 ∧
      round ((mThirdRep.interval_days : ℚ) * (sm2_step mThirdRep true 0).easiness_factor) = 18 := by
  constructor
  · simp only [sm2_step, mThirdRep, baseMistake, pyInt, min_def]
    norm_num
  · simp only [sm2_step, mThirdRep, baseMistake, min_def]
    norm_num [round_eq]

/-- C3 (amended): on a correct answer with `ef ∈ [1.3, 2.5]`,
`repetition' = repetition + 1`, and the new interval is 1 day when
`repetition' = 1`, 6 days when `repetition' = 2`, and the *truncation*
(Python `int`, not rounding) of `intervalDays * ef'` when `repetition' ≥ 3`,
where `ef'` is the already-updated easiness factor. -/
theorem C3_theorem (m : Mistake) (now : ℤ)
    (h1 : (13/10 : ℚ) ≤ m.easiness_factor) (h2 : m.easiness_factor ≤ 5/2) :
    (sm2_step m true now).repetition_count = m.repetition_count + 1 ∧
      (sm2_step m true now).interval_days =
        (if m.repetition_count + 1 = 1 then 1
         else if m.repetition_count + 1 = 2 then 6
         else pyInt ((m.interval_days : ℚ) * (sm2_step m true now).easiness_factor)) := by
  refine ⟨by simp [sm2_step], ?_⟩
  simp [sm2_step]

/-- Witness for C3: second correct repetition from `repetition_count = 1`
gives a 6-day interval. -/
theorem C3_witness :
    (((13/10 : ℚ) ≤ mOneRep.easiness_factor) ∧ (mOneRep.easiness_factor ≤ 5/2)) ∧
      ((sm2_step mOneRep true 0).repetition_count = mOneRep.repetition_count + 1 ∧
        (sm2_step mOneRep true 0).interval_days =
          (if mOneRep.repetition_count + 1 = 1 then 1
           else if mOneRep.repetition_count + 1 = 2 then 6
           else pyInt ((mOneRep.interval_days : ℚ) * (sm2_step mOneRep true 0).easiness_factor))) :=
  ⟨⟨by norm_num [mOneRep, baseMistake], by norm_num [mOneRep, baseMistake]⟩,
    C3_theorem mOneRep 0 (by norm_num [mOneRep, baseMistake]) (by norm_num [mOneRep, baseMistake])⟩

/-- C4: after `update_mistake_after_drill` the drill counts are incremented
for this attempt, `mastery_score' = times_correct' / times_drilled'`,
`is_mastered'` holds exactly when `mastery_score' ≥ 0.8` and
`times_drilled' ≥ 3` hold simultaneously, and `mastered_at` is set to `now`
only on the false-to-true transition of `is_mastered`; it is never re-set on
an already mastered mistake. -/
theorem C4_theorem (m : Mistake) (b : Bool) (now : ℤ)
    (h : m.times_correct ≤ m.times_drilled) :
    (sm2_step m b now).times_drilled = m.times_drilled + 1 ∧
      (sm2_step m b now).times_correct = m.times_correct + (if b then 1 else 0) ∧
      (sm2_step m b now).mastery_score =
        ((sm2_step m b now).times_correct : ℚ) / ((sm2_step m b now).times_drilled : ℚ) ∧
      ((sm2_step m b now).is_mastered = true ↔
        ((4/5 : ℚ) ≤ (sm2_step m b now).mastery_score ∧ 3 ≤ (sm2_step m b now).times_drilled)) ∧
      (sm2_step m b now).mastered_at =
        (if (sm2_step m b now).is_mastered = true ∧ m.is_mastered = false
         then some now else m.mastered_at) ∧
      (m.is_mastered = true → (sm2_step m b now).mastered_at = m.mastered_at) := by
  refine ⟨by simp [sm2_step], by simp [sm2_step], by simp [sm2_step], ?_, ?_, ?_⟩
  · simp [sm2_step]
  · cases hm : m.is_mastered <;> simp [sm2_step, hm]
  · intro hm
    simp [sm2_step, hm]

/-- Witness for C4: the spec's Scenario C, third attempt correct on a mistake
with `times_drilled = 2`, `times_correct = 2`. -/
theorem C4_witness :
    (mScenarioC.times_correct ≤ mScenarioC.times_drilled) ∧
      ((sm2_step mScenarioC true 0).times_drilled = mScenarioC.times_drilled + 1 ∧
        (sm2_step mScenarioC true 0).times_correct = mScenarioC.times_correct + (if true then 1 else 0) ∧
        (sm2_step mScenarioC true 0).mastery_score =
          ((sm2_step mScenarioC true 0).times_correct : ℚ) / ((sm2_step mScenarioC true 0).times_drilled : ℚ) ∧
        ((sm2_step mScenarioC true 0).is_mastered = true ↔
          ((4/5 : ℚ) ≤ (sm2_step mScenarioC true 0).mastery_score ∧
            3 ≤ (sm2_step mScenarioC true 0).times_drilled)) ∧
        (sm2_step mScenarioC true 0).mastered_at =
          (if (sm2_step mScenarioC true 0).is_mastered = true ∧ mScenarioC.is_mastered = false
           then some 0 else mScenarioC.mastered_at) ∧
        (mScenarioC.is_mastered = true → (sm2_step mScenarioC true 0).mastered_at = mScenarioC.mastered_at)) :=
  ⟨by simp [mScenarioC, baseMistake], C4_theorem mScenarioC true 0 (by simp [mScenarioC, baseMistake])⟩

/-- C5 as stated is false: `is_mastered` is recomputed from the updated
counts on every drill, so a wrong answer on a mastered mistake with
`times_drilled = 3`, `times_correct = 3` drops the score to `3/4 < 0.8` and
unsets mastery. -/
theorem C5_counterexample :
    mMastered.is_mastered = true ∧ (sm2_step mMastered false 0).is_mastered = false := by
  constructor
  · rfl
  · simp only [sm2_step, mMastered, baseMistake]
    norm_num

/-- C5 (amended): mastery is preserved by correct answers: if the mistake's
counts justify mastery (`times_correct / times_drilled ≥ 0.8`,
`times_drilled ≥ 3`, `times_correct ≤ times_drilled`), then after a correct
answer `is_mastered` is still true.  A wrong answer can unset it, so
`is_mastered` is not monotonic under the scheduler. -/
theorem C5_theorem (m : Mistake) (now : ℤ)
    (h1 : (4/5 : ℚ) ≤ (m.times_correct : ℚ) / (m.times_drilled : ℚ))
    (h2 : 3 ≤ m.times_drilled) (h3 : m.times_correct ≤ m.times_drilled) :
    (sm2_step m true now).is_mastered = true := by
  have hd : (0 : ℚ) < (m.times_drilled : ℚ) := by
    exact_mod_cast Nat.lt_of_lt_of_le (by norm_num) h2
  have hd1 : (0 : ℚ) < (m.times_drilled : ℚ) + 1 := by linarith
  rw [div_le_div_iff₀ (by norm_num) hd] at h1
  have hc : (m.times_correct : ℚ) ≤ (m.times_drilled : ℚ) := by exact_mod_cast h3
  have key : (4/5 : ℚ) ≤ ((m.times_correct : ℚ) + 1) / ((m.times_drilled : ℚ) + 1) := by
    rw [div_le_div_iff₀ (by norm_num) hd1]
    linarith
  simp only [sm2_step, Bool.and_eq_true, decide_eq_true_eq]
  refine ⟨?_, by omega⟩
  have hpos : 0 < m.times_drilled + 1 := Nat.succ_pos _
  simp only [hpos, if_pos, if_true]
  push_cast
  convert key using 2

/-- Witness for C5 at a mastered 3/3 mistake answered correctly. -/
theorem C5_witness :
    (((4/5 : ℚ) ≤ (mMastered.times_correct : ℚ) / (mMastered.times_drilled : ℚ)) ∧
        (3 ≤ mMastered.times_drilled) ∧ (mMastered.times_correct ≤ mMastered.times_drilled)) ∧
      (sm2_step mMastered true 0).is_mastered = true :=
  ⟨⟨by norm_num [mMastered, baseMistake], by norm_num [mMastered, baseMistake],
      by norm_num [mMastered, baseMistake]⟩,
    C5_theorem mMastered 0 (by norm_num [mMastered, baseMistake])
      (by norm_num [mMastered, baseMistake]) (by norm_num [mMastered, baseMistake])⟩
/-- `handle_greeting` sets the phase to onboarding or idle without touching
the drill, so it keeps the invariant exactly when no drill is attached. -/
theorem greeting_preserves (llm : LLM) (user : User) (s : ConversationState) (msg : String)
    (img : Option String) (env : Env) (hnone : s.active_drill = none) :
    PreservesInv (handle_greeting llm user s msg img env) := by
  simp only [handle_greeting]
  split <;> simp [PreservesInv, stateInv, hnone]

/-- `handle_onboarding` keeps the invariant from drill-free states. -/
theorem onboarding_preserves (llm : LLM) (user : User) (s : ConversationState) (msg : String)
    (img : Option String) (env : Env) (hinv : stateInv s) (hnone : s.active_drill = none) :
    PreservesInv (handle_onboarding llm user s msg img env) := by
  simp only [handle_onboarding]
  split
  · exact hinv
  · simp [PreservesInv, stateInv, hnone]

/-- `handle_report_mistake` keeps the invariant from drill-free states. -/
theorem report_preserves (llm : LLM) (user : User) (s : ConversationState) (msg : String)
    (img : Option String) (env : Env) (hinv : stateInv s) (hnone : s.active_drill = none) :
    PreservesInv (handle_report_mistake llm user s msg img env) := by
  simp only [handle_report_mistake, report_mistake_tail]
  split
  · split
    · exact hinv
    · simp [PreservesInv, stateInv, hnone]
  · simp [PreservesInv, stateInv, hnone]

/-- `handle_stop` sets the phase to stopped without clearing the drill, so it
keeps the invariant exactly when no drill is attached. -/
theorem stop_preserves (llm : LLM) (user : User) (s : ConversationState) (msg : String)
    (img : Option String) (env : Env) (hnone : s.active_drill = none) :
    PreservesInv (handle_stop llm user s msg img env) := by
  simp only [handle_stop]
  simp [PreservesInv, stateInv, hnone]

/-- `handle_start_drill` either leaves the state alone or installs a drill
together with the drilling phase. -/
theorem start_drill_preserves (llm : LLM) (user : User) (s : ConversationState) (msg : String)
    (img : Option String) (env : Env) (hinv : stateInv s) :
    PreservesInv (handle_start_drill llm user s msg img env) := by
  simp only [handle_start_drill]
  split
  · split <;> exact hinv
  · simp [PreservesInv, stateInv]

/-- `handle_answer_drill` clears drill and phase together, keeps both, or
leaves the state alone. -/
theorem answer_drill_preserves (llm : LLM) (user : User) (s : ConversationState) (msg : String)
    (img : Option String) (env : Env) (hinv : stateInv s) :
    PreservesInv (handle_answer_drill llm user s msg img env) := by
  simp only [handle_answer_drill]
  split
  · exact hinv
  · rename_i d hd
    split
    · exact hinv
    · split
      · trivial
      · split
        · simp [PreservesInv, stateInv, clear_drill]
        · split
          · simp [PreservesInv, stateInv, clear_drill]
          · have hph : s.phase = "drilling" := hinv.mp (by simp [hd])
            simp [PreservesInv, stateInv, increment_hints, update_drill_attempts, hd, hph]

/-- `handle_stats` never changes the state. -/
theorem stats_preserves (llm : LLM) (user : User) (s : ConversationState) (msg : String)
    (img : Option String) (env : Env) (hinv : stateInv s) :
    PreservesInv (handle_stats llm user s msg img env) := by
  simp only [handle_stats]
  split
  · trivial
  · exact hinv

/-- `handle_help` never changes the state. -/
theorem help_preserves (llm : LLM) (user : User) (s : ConversationState) (msg : String)
    (img : Option String) (env : Env) (hinv : stateInv s) :
    PreservesInv (handle_help llm user s msg img env) := by
  simp only [handle_help]
  exact hinv

/-- `handle_chitchat` never changes the state. -/
theorem chitchat_preserves (llm : LLM) (user : User) (s : ConversationState) (msg : String)
    (img : Option String) (env : Env) (hinv : stateInv s) :
    PreservesInv (handle_chitchat llm user s msg img env) := by
  simp only [handle_chitchat]
  split <;> exact hinv

/-- C6 as stated is false: `handle_stop` is reachable while a drill is active
(the quick keyword `STOP` is matched even in the drilling phase) and sets the
phase to `stopped` without clearing `active_drill`, breaking the invariant
that a drill is attached iff the phase is drilling. -/
theorem C6_counterexample :
    stateInv sDrilling ∧
      resState (handle_stop llm0 user0 sDrilling "stop" none env0) =
        some { sDrilling with phase := "stopped" } ∧
      ¬ stateInv { sDrilling with phase := "stopped" } :=
  ⟨by decide, by decide, by decide⟩

/-- C6 (amended): starting from a state satisfying the invariant, the
start-drill, answer-drill, stats, help and chitchat handlers always preserve
it, and the greeting, onboarding, report-mistake and stop handlers preserve
it when no drill is active; the latter four set the phase without clearing
`active_drill`, so they break the invariant when invoked mid-drill. -/
theorem C6_theorem (llm : LLM) (user : User) (s : ConversationState) (msg : String)
    (img : Option String) (env : Env) (hinv : stateInv s) :
    (s.active_drill = none →
      PreservesInv (handle_greeting llm user s msg img env) ∧
      PreservesInv (handle_onboarding llm user s msg img env) ∧
      PreservesInv (handle_report_mistake llm user s msg img env) ∧
      PreservesInv (handle_stop llm user s msg img env)) ∧
    PreservesInv (handle_start_drill llm user s msg img env) ∧
    PreservesInv (handle_answer_drill llm user s msg img env) ∧
    PreservesInv (handle_stats llm user s msg img env) ∧
    PreservesInv (handle_help llm user s msg img env) ∧
    PreservesInv (handle_chitchat llm user s msg img env) :=
  ⟨fun hnone =>
    ⟨greeting_preserves llm user s msg img env hnone,
      onboarding_preserves llm user s msg img env hinv hnone,
      report_preserves llm user s msg img env hinv hnone,
      stop_preserves llm user s msg img env hnone⟩,
    start_drill_preserves llm user s msg img env hinv,
    answer_drill_preserves llm user s msg img env hinv,
    stats_preserves llm user s msg img env hinv,
    help_preserves llm user s msg img env hinv,
    chitchat_preserves llm user s msg img env hinv⟩

/-- Witness for C6 at the idle state with no drill. -/
theorem C6_witness :
    stateInv sIdle ∧
      ((sIdle.active_drill = none →
        PreservesInv (handle_greeting llm0 user0 sIdle "hi" none env0) ∧
        PreservesInv (handle_onboarding llm0 user0 sIdle "hi" none env0) ∧
        PreservesInv (handle_report_mistake llm0 user0 sIdle "hi" none env0) ∧
        PreservesInv (handle_stop llm0 user0 sIdle "hi" none env0)) ∧
      PreservesInv (handle_start_drill llm0 user0 sIdle "hi" none env0) ∧
      PreservesInv (handle_answer_drill llm0 user0 sIdle "hi" none env0) ∧
      PreservesInv (handle_stats llm0 user0 sIdle "hi" none env0) ∧
      PreservesInv (handle_help llm0 user0 sIdle "hi" none env0) ∧
      PreservesInv (handle_chitchat llm0 user0 sIdle "hi" none env0)) :=
  ⟨by decide, C6_theorem llm0 user0 sIdle "hi" none env0 (by decide)⟩

/-- C7: a message whose WhatsApp id was already seen is dropped before any
work happens: `process_message` returns no response and leaves the entire
environment (users, state, attempts, history) untouched, so reprocessing a
message id yields no second state mutation, no Attempt row and no outbound
message. -/
theorem C7_theorem (llm : LLM) (env : Env) (phone_number : String)
    (message_text image_url : Option String) (id : String)
    (h1 : id ≠ "") (h2 : is_duplicate_message (some id) env = true) :
    process_message llm env phone_number message_text image_url (some id) = .ok (none, env) := by
  have hb : (id == "") = false := beq_eq_false_iff_ne.mpr h1
  simp [process_message, pyFalsy, hb, h2]

/-- Witness for C7: the id `wamid1` is already in the message history. -/
theorem C7_witness :
    ("wamid1" ≠ "" ∧ is_duplicate_message (some "wamid1") envSeen = true) ∧
      process_message llm0 envSeen "p1" (some "hi") none (some "wamid1") = .ok (none, envSeen) :=
  ⟨⟨by decide, by decide⟩,
    C7_theorem llm0 envSeen "p1" (some "hi") none "wamid1" (by decide) (by decide)⟩

/-- C8: when a drill is active and the normalized letter of the submission is
not A, B, C or D, `handle_answer_drill` returns the re-prompt and returns the
state and environment unchanged: attempts are not incremented, no Attempt row
is logged, and the review scheduler is not invoked. -/
theorem C8_theorem (llm : LLM) (user : User) (s : ConversationState) (msg : String)
    (img : Option String) (env : Env) (d : DrillState)
    (hd : s.active_drill = some d)
    (hz : (["A", "B", "C", "D"] : List String).contains (extract_answer msg) = false) :
    handle_answer_drill llm user s msg img env =
      .ok ("Please reply with *A*, *B*, *C*, or *D*", s, env) := by
  simp only [handle_answer_drill, hd, hz, Bool.not_false, if_true]

/-- Witness for C8 with the invalid letter `Z`. -/
theorem C8_witness :
    (sDrilling.active_drill = some drillFix ∧
      (["A", "B", "C", "D"] : List String).contains (extract_answer "Z") = false) ∧
      handle_answer_drill llm0 user0 sDrilling "Z" none env0 =
        .ok ("Please reply with *A*, *B*, *C*, or *D*", sDrilling, env0) :=
  ⟨⟨rfl, by decide⟩,
    C8_theorem llm0 user0 sDrilling "Z" none env0 drillFix rfl (by decide)⟩

/-- `get_mistake_by_id` is unaffected by logging a drill attempt. -/
theorem get_mistake_by_id_save_attempt (mid uid mid2 sa ca : String) (ic : Bool)
    (did : Option String) (hu : ℕ) (env : Env) :
    get_mistake_by_id mid (save_drill_attempt uid mid2 sa ca ic did hu env) =
      get_mistake_by_id mid env := rfl

/-- `hint_at` ignores the attempts counter. -/
theorem hint_at_attempts (d : DrillState) (n k : ℕ) :
    hint_at { d with attempts := n } k = hint_at d k := by
  rcases k with _ | _ | _ | k <;> rfl

/-- C9 as stated is false on two counts.  First, with no hints supplied a
first wrong answer still increments `hints_given` to 1, which exceeds the
number of hints supplied (0).  Second, a wrong answer submitted with one
prior attempt (attempts = 1 < 3) does not produce a hint outcome at all: the
handler's local attempt count is double-incremented (the `drill` dict aliases
the state), so the solution is revealed and the drill cleared instead. -/
theorem C9_counterexample :
    (num_hints drillFix = 0 ∧
      drillFix.attempts < 3 ∧
      extract_answer "A" = "A" ∧
      ("A" == drillFix.correct_option) = false ∧
      (resState (handle_answer_drill llm0 user0 sDrilling "A" none env0)).bind
        (fun t => t.active_drill.map (fun d => d.hints_given)) = some 1) ∧
    (drillSecondTry.attempts < 3 ∧
      ("A" == drillSecondTry.correct_option) = false ∧
      (resState (handle_answer_drill llm0 user0 sSecondTry "A" none env0)).map
        (fun t => t.active_drill) = some none) :=
  ⟨⟨by decide, by decide, by decide, by decide, by decide⟩,
    ⟨by decide, by decide, by decide⟩⟩

/-- C9 (amended): on an incorrect answer with no prior attempt on the
question (the only case that reaches the hint path, because the handler's
local attempt count is the stored count plus two), the outcome carries
`hintText = session.hints[hintsGiven]` when supplied and none otherwise, the
reported attempt number is the stored count plus two, and `hintsGiven` is
incremented by exactly 1 — even when no hint is available — so it can exceed
the number of hints supplied but never exceeds the attempts counter. -/
theorem C9_theorem (llm : LLM) (user : User) (s : ConversationState) (msg : String)
    (img : Option String) (env : Env) (d : DrillState) (mk : Mistake)
    (hd : s.active_drill = some d)
    (ha : (["A", "B", "C", "D"] : List String).contains (extract_answer msg) = true)
    (hw : (extract_answer msg == d.correct_option) = false)
    (hfirst : d.attempts = 0)
    (hmk : get_mistake_by_id d.mistake_id env = some mk) :
    resResponse (handle_answer_drill llm user s msg img env) =
      some (llm.generate_wrong_response (extract_answer msg) d.correct_option (d.attempts + 2)
        d.hints_given (hint_at d d.hints_given) none) ∧
    resState (handle_answer_drill llm user s msg img env) =
      some (increment_hints (update_drill_attempts s)) ∧
    (resState (handle_answer_drill llm user s msg img env)).bind (fun t => t.active_drill) =
      some { d with attempts := d.attempts + 1, hints_given := d.hints_given + 1 } ∧
    (d.hints_given ≤ d.attempts → d.hints_given + 1 ≤ d.attempts + 1) := by
  refine ⟨?_, ?_, ?_, fun h2 => Nat.add_le_add_right h2 1⟩ <;>
    (simp only [handle_answer_drill, hd, ha, hw, Bool.not_true, Bool.false_eq_true, if_false,
      update_mistake_after_drill, get_mistake_by_id_save_attempt, hmk, hfirst]
     norm_num [resResponse, resState, increment_hints, update_drill_attempts, hd,
       hint_at_attempts]) <;>
    omega

/-- Witness for C9: first wrong answer `A` against correct option `B`. -/
theorem C9_witness :
    (sDrilling.active_drill = some drillFix ∧
      (["A", "B", "C", "D"] : List String).contains (extract_answer "A") = true ∧
      (extract_answer "A" == drillFix.correct_option) = false ∧
      drillFix.attempts = 0 ∧
      get_mistake_by_id drillFix.mistake_id env0 = some mFix) ∧
    (resResponse (handle_answer_drill llm0 user0 sDrilling "A" none env0) =
      some (llm0.generate_wrong_response (extract_answer "A") drillFix.correct_option
        (drillFix.attempts + 2) drillFix.hints_given (hint_at drillFix drillFix.hints_given) none) ∧
    resState (handle_answer_drill llm0 user0 sDrilling "A" none env0) =
      some (increment_hints (update_drill_attempts sDrilling)) ∧
    (resState (handle_answer_drill llm0 user0 sDrilling "A" none env0)).bind
      (fun t => t.active_drill) =
      some { drillFix with attempts := drillFix.attempts + 1, hints_given := drillFix.hints_given + 1 } ∧
    (drillFix.hints_given ≤ drillFix.attempts →
      drillFix.hints_given + 1 ≤ drillFix.attempts + 1)) :=
  ⟨⟨rfl, by decide, by decide, rfl, by decide⟩,
    C9_theorem llm0 user0 sDrilling "A" none env0 drillFix mFix rfl (by decide) (by decide)
      rfl (by decide)⟩

/-- C10 as stated is false: the router keys on the first character of the
message before any `OPTION` stripping, so during a drill the message
`Option B` — whose normalized letter per the claim is `B` — is not treated
as an answer: with an intent oracle that classifies it as chitchat it reaches
the chitchat handler, no attempt is recorded and the drill is untouched. -/
theorem C10_counterexample :
    extract_answer "Option B" = "B" ∧
      route_message llm0 user0 sDrilling "Option B" none env0 =
        .ok (some ("Hey there, let\x27s focus! 📚\n\nYou have 1 mistakes waiting.\nReply *GO* to practice, or tell me about a new mistake."),
          { sDrilling with last_intent := some "CHITCHAT" }, env0) :=
  ⟨by decide, by rfl⟩

/-- C10 (amended): while a drill is active, any message whose first character
after trimming and upper-casing — before any `OPTION` stripping — is A, B, C
or D is routed to the answer handler, which strips a leading `OPTION` prefix
and submits only the first character of what remains (`Bird` submits `B`);
a message like `Option B` starts with `O` and is not deterministically routed
as an answer. -/
theorem C10_theorem (llm : LLM) (user : User) (s : ConversationState) (msg : String)
    (img : Option String) (env : Env) (d : DrillState)
    (hactive : user.is_active = true)
    (hphase : s.phase = "drilling")
    (hd : s.active_drill = some d)
    (hfc : (["A", "B", "C", "D"] : List String).contains (pyTake1 (pyUpper (pyStrip msg))) = true) :
    route_message llm user s msg img env =
      wrap_response (handle_answer_drill llm user s msg img env) ∧
    extract_answer "Bird" = "B" ∧ extract_answer "OPTION B" = "B" := by
  refine ⟨?_, by decide, by decide⟩
  have hob : (s.phase == "onboarding") = false := by
    rw [hphase]
    decide
  simp only [route_message, hactive, Bool.not_true, Bool.false_eq_true, if_false, hob,
    Bool.false_and, Bool.and_false, route_drill_check, has_active_drill, hd,
    Option.isSome_some, hfc, Bool.and_self, if_true]

/-- Witness for C10 with the message `Bird` during an active drill. -/
theorem C10_witness :
    (user0.is_active = true ∧
      sDrilling.phase = "drilling" ∧
      sDrilling.active_drill = some drillFix ∧
      (["A", "B", "C", "D"] : List String).contains (pyTake1 (pyUpper (pyStrip "Bird"))) = true) ∧
    (route_message llm0 user0 sDrilling "Bird" none env0 =
      wrap_response (handle_answer_drill llm0 user0 sDrilling "Bird" none env0) ∧
    extract_answer "Bird" = "B" ∧ extract_answer "OPTION B" = "B") :=
  ⟨⟨rfl, rfl, rfl, by decide⟩,
    C10_theorem llm0 user0 sDrilling "Bird" none env0 drillFix rfl rfl rfl (by decide)⟩
